import Mathlib

/-!
Shallow embedding of the rio core sources: the osfs filesystem driver
(device-number packing and Readlink), the bind-mount placer, and the
caching Unpack wrapper.  Definitions are translated from the Go source
files; external collaborators (the fs path library, host syscall
outcomes, the unpack tool) are modelled as explicit inputs.
-/

namespace Rio

/-- Device-number packing, from devModesJoin in osfs.go.  The Go
signature is func devModesJoin(major int64, minor int64) uint32.  An
int64 argument is modelled as an Int whose 64-bit two-complement bit
pattern is (x % 2^64).toNat, on which the Go bitwise ops agree with
the Nat ops; the final uint32 conversion truncates modulo 2^32. -/
def devModesJoin (major minor : Int) : Nat :=
  ((((minor % (2 : Int) ^ 64).toNat &&& 0xfff00) <<< 12) |||
   (((major % (2 : Int) ^ 64).toNat &&& 0xfff) <<< 8) |||
   ((minor % (2 : Int) ^ 64).toNat &&& 0xff)) % 2 ^ 32

/-- Device-number splitting, from devModesSplit in osfs.go.  The Go
signature is func devModesSplit(rdev uint64) (major int64, minor
int64); the uint64 argument is a Nat below 2^64, and the int64 results
are nonnegative small values, so Int.ofNat is exact. -/
def devModesSplit (rdev : Nat) : Int × Int :=
  (Int.ofNat ((rdev >>> 8) &&& 0xff),
   Int.ofNat ((rdev &&& 0xff) ||| ((rdev >>> 12) &&& 0xfff00)))

/-- Outcome of the underlying os.Readlink host call, classified the
way osFS.Readlink dispatches on it: ok means the entry is a symlink
and carries the target; enoent (os.IsNotExist) means the entry is
absent; einval means the entry exists but is not a symlink; other is
any remaining host failure, carried as a numeric code. -/
inductive OsReadlinkResult
  | ok (target : String)
  | enoent
  | einval
  | other (e : Nat)
deriving DecidableEq

/-- Error values surfaced by the fs layer for Readlink: ErrNotExists
carries the probed path; IOError wraps the host error code. -/
inductive ErrFS
  | errNotExists (path : String)
  | ioError (e : Nat)
deriving DecidableEq

/-- Readlink, from osFS.Readlink in osfs.go: a four-way switch on the
outcome of the os.Readlink call for the joined path. -/
def Readlink (path : String) (r : OsReadlinkResult) :
    String × Bool × Option ErrFS :=
  match r with
  | .ok target => (target, true, none)
  | .enoent => ("", false, some (.errNotExists path))
  | .einval => ("", false, none)
  | .other e => ("", false, some (.ioError e))

/-- Entry types of the fs metadata model, as enumerated by the LStat
switch in osfs.go. -/
inductive FsType
  | file
  | dir
  | symlink
  | namedPipe
  | socket
  | device
  | charDevice
deriving DecidableEq

/-- Error categories of the go-timeless-api rio package used by these
sources (go-errcat categories). -/
inductive ErrCategory
  | exitLocalCacheProblem
  | errLocalCacheProblem
  | errAssemblyInvalid
deriving DecidableEq

/-- Go error values as these sources handle them: either an error
built by Errorf with a category (the formatted message is dropped by
the model), or a pre-existing host error value, carried as a numeric
code. -/
inductive GoErr
  | categorized (cat : ErrCategory)
  | hostErr (code : Nat)
deriving DecidableEq

/-- Flag word MS_BIND of the mount syscall. -/
def MS_BIND : Nat := 0x1000

/-- Flag word MS_REC of the mount syscall. -/
def MS_REC : Nat := 0x4000

/-- Flag word MS_RDONLY of the mount syscall. -/
def MS_RDONLY : Nat := 0x1

/-- Flag word MS_REMOUNT of the mount syscall. -/
def MS_REMOUNT : Nat := 0x20

/-- Mount-table syscalls the placer issues: a mount with its flag
word, or an unmount of the destination. -/
inductive MountOp
  | mount (flags : Nat)
  | unmount
deriving DecidableEq

/-- Outcome of the LStat call BindPlacer makes on the source: either
the entry type of the source, or a host error. -/
inductive StatResult
  | ok (t : FsType)
  | error (e : GoErr)
deriving DecidableEq

/-- Host responses for the calls BindPlacer makes, in program order:
the LStat of the source, mkDest, the bind mount, and the read-only
remount.  A none field means that call succeeds when reached. -/
structure PlacerEnv where
  statResult : StatResult
  mkDestErr : Option GoErr
  mount1Err : Option GoErr
  mount2Err : Option GoErr
deriving DecidableEq

/-- Result of a BindPlacer call: whether a teardown closure was
returned, the returned error value, and the mount-table syscalls the
placer issued before returning (failed attempts included). -/
structure PlacerResult where
  hasCleanup : Bool
  err : Option GoErr
  ops : List MountOp
deriving DecidableEq

/-- BindPlacer, from the placer source file, step for step: LStat the
source (failure is an errLocalCacheProblem); require type File or Dir
(anything else is errAssemblyInvalid); mkDest (its error is returned
unchanged); issue the recursive bind mount (failure is
errAssemblyInvalid); when writable is false, issue the read-only
remount (failure is errAssemblyInvalid).  On full success a teardown
closure is returned.  No branch of the source issues an unmount
before returning. -/
def BindPlacer (env : PlacerEnv) (writable : Bool) : PlacerResult :=
  match env.statResult with
  | .error _ =>
    { hasCleanup := false, err := some (.categorized .errLocalCacheProblem),
      ops := [] }
  | .ok srcType =>
    match srcType with
    | .file | .dir =>
      match env.mkDestErr with
      | some e => { hasCleanup := false, err := some e, ops := [] }
      | none =>
        let flags := MS_BIND ||| MS_REC
        match env.mount1Err with
        | some _ =>
          { hasCleanup := false,
            err := some (.categorized .errAssemblyInvalid),
            ops := [.mount flags] }
        | none =>
          if !writable then
            let flags2 := flags ||| MS_RDONLY ||| MS_REMOUNT
            match env.mount2Err with
            | some _ =>
              { hasCleanup := false,
                err := some (.categorized .errAssemblyInvalid),
                ops := [.mount flags, .mount flags2] }
            | none =>
              { hasCleanup := true, err := none,
                ops := [.mount flags, .mount flags2] }
          else
            { hasCleanup := true, err := none, ops := [.mount flags] }
    | _ =>
      { hasCleanup := false, err := some (.categorized .errAssemblyInvalid),
        ops := [] }

/-- WareID from the timeless api: a type tag and a hash. -/
structure WareID where
  type : String
  hash : String
deriving DecidableEq

/-- FilesetFilters of the timeless api, opaque to the cache and
forwarded unchanged; modelled by an abstract tag. -/
structure FilesetFilters where
  tag : Nat
deriving DecidableEq

/-- Monitor of the rio api, an opaque progress sink forwarded
unchanged; modelled by an abstract tag. -/
structure Monitor where
  tag : Nat
deriving DecidableEq

/-- Placement modes of the rio api. -/
inductive PlacementMode
  | direct
  | copy
  | mount
  | noPlacement
deriving DecidableEq

/-- Arguments of one invocation of the underlying unpack tool, as the
cache passes them (the context argument is omitted). -/
structure ToolCall where
  wareID : WareID
  path : String
  filt : FilesetFilters
  placementMode : PlacementMode
  warehouses : List String
  monitor : Monitor
deriving DecidableEq

/-- UnpackFunc capability of the rio api: the underlying unpack tool,
yielding the resulting WareID and possibly an error. -/
def UnpackFunc :=
  WareID → String → FilesetFilters → PlacementMode → List String →
    Monitor → WareID × Option GoErr

/-- Modelled from the spec: path joining of the rio fs package, which
is not among the sources.  Per the data model, an absolute base path
is deterministically extended by a relative path; the rendering
details are irrelevant here, only determinism is used. -/
def fsJoin (basePath rel : String) : String := basePath ++ "/" ++ rel

/-- Modelled from the spec: the rendering of the zero value of
fs.RelPath (the rio fs package is not among the sources), standing for
the implicit-base current directory.  Only the fact that it is one
fixed constant, identical for every call, is used. -/
def zeroRelPath : String := "."

/-- Observable outcome of one cache.Unpack call: the returned pair,
the unpack-tool invocations made, the paths the cache code itself
removed, and the shelf set afterwards. -/
structure UnpackOutcome where
  result : WareID × Option GoErr
  toolCalls : List ToolCall
  removedPaths : List String
  shelvesAfter : List WareID
deriving DecidableEq

/-- Host response for the fsOp.MkdirAll call that initializes the
cache dirs; none means it succeeds. -/
structure CacheEnv where
  mkdirAllErr : Option GoErr
deriving DecidableEq

/-- Unpack, from the cache source file, branch for branch: initialize
the cache dirs (failure is an exitLocalCacheProblem Errorf); the
shelf check is an unwritten TODO in the source, so the shelves list is
never consulted; tmpPath is declared and never assigned, so the
staging path is the zero RelPath joined to the cache base on every
call; delegate to the unpack tool with Placement_Direct; on tool
error return the result and the error unchanged (the tempdir cleanup
is an unwritten TODO, so nothing is removed); on success return the
result WareID (the shelf commit and the placer step are unwritten
TODOs, so the shelf set is unchanged). -/
def cacheUnpack (env : CacheEnv) (basePath : String) (shelves : List WareID)
    (unpackTool : UnpackFunc) (wareID : WareID) (path : String)
    (filt : FilesetFilters) (placementMode : PlacementMode)
    (warehouses : List String) (monitor : Monitor) : UnpackOutcome :=
  match env.mkdirAllErr with
  | some _ =>
    { result := (⟨"", ""⟩, some (.categorized .exitLocalCacheProblem)),
      toolCalls := [], removedPaths := [], shelvesAfter := shelves }
  | none =>
    let tmpPathStr := fsJoin basePath zeroRelPath
    let r := unpackTool wareID tmpPathStr filt .direct warehouses monitor
    match r.2 with
    | some e =>
      { result := (r.1, some e),
        toolCalls := [⟨wareID, tmpPathStr, filt, .direct, warehouses, monitor⟩],
        removedPaths := [], shelvesAfter := shelves }
    | none =>
      { result := (r.1, none),
        toolCalls := [⟨wareID, tmpPathStr, filt, .direct, warehouses, monitor⟩],
        removedPaths := [], shelvesAfter := shelves }

/-- Fixture WareID used by concrete evaluations. -/
def wareA : WareID := ⟨"tar", "aaa"⟩

/-- Second fixture WareID, distinct from wareA. -/
def wareB : WareID := ⟨"tar", "bbb"⟩

/-- Fixture unpack tool that always succeeds returning wareA. -/
def toolConstA : UnpackFunc := fun _ _ _ _ _ _ => (wareA, none)

/-- Fixture unpack tool that always succeeds returning wareB. -/
def toolConstB : UnpackFunc := fun _ _ _ _ _ _ => (wareB, none)

/-- Fixture unpack tool that always fails with host error 7. -/
def toolFail : UnpackFunc := fun _ _ _ _ _ _ => (⟨"", ""⟩, some (.hostErr 7))

/-- Absorption of a mod by a bitmask: when the mask lies below bit k,
masking is unaffected by first reducing modulo 2 to the k. -/
lemma and_mask_mod (n k mask : Nat) (h : (2 ^ k - 1) &&& mask = mask) :
    n &&& mask = (n % 2 ^ k) &&& mask := by
  conv_rhs => rw [← Nat.and_pow_two_sub_one_eq_mod n k]
  rw [Nat.and_assoc, h]

/-- Reducing the 64-bit pattern of an Int modulo 2 to the k, for k at
most 64, equals taking the bit pattern of the Int modulo 2 to the k. -/
lemma emod_toNat_mod (x : Int) (k : Nat) (hk : k ≤ 64) :
    (x % (2 : Int) ^ 64).toNat % 2 ^ k = (x % (2 : Int) ^ k).toNat := by
  have hx64 : 0 ≤ x % (2 : Int) ^ 64 := Int.emod_nonneg x (by positivity)
  have hxk : 0 ≤ x % (2 : Int) ^ k := Int.emod_nonneg x (by positivity)
  have h1 : (x % (2 : Int) ^ 64) % (2 : Int) ^ k = x % (2 : Int) ^ k :=
    Int.emod_emod_of_dvd x (pow_dvd_pow 2 hk)
  have h2 : (((x % (2 : Int) ^ 64).toNat % 2 ^ k : Nat) : Int) =
      (((x % (2 : Int) ^ k).toNat : Nat) : Int) := by
    rw [Int.natCast_mod, Int.toNat_of_nonneg hx64, Int.toNat_of_nonneg hxk,
        show (((2 ^ k : Nat) : Int)) = (2 : Int) ^ k by push_cast; ring]
    exact h1
  exact_mod_cast h2

/-- Claim C1, evaluated at the failing input major 256, minor 0:
devModesJoin packs the low 12 bits of major into result bits 8 to 19
as the spec states (the result is 65536, bit 16 alone), but
devModesSplit masks the major field with 0xff instead of 0xfff and
drops rdev bits 16 to 19 entirely, so the decode of the encode
returns the pair (0, 0) instead of (256, 0): the round trip fails
inside the host-supported range major below 4096, minor below
1048576. -/
theorem devModesSplit_join_drops_high_major :
    devModesJoin 256 0 = 65536 ∧ devModesSplit (devModesJoin 256 0) = (0, 0) := by
  constructor
  · decide
  · decide

/-- Claim C10: devModesJoin is a total function on pairs of 64-bit
integers that never rejects out-of-range input, and its result
depends only on major modulo 2 to the 12 and minor modulo 2 to the
20, so any higher bits are silently discarded. -/
theorem devModesJoin_mod_invariance (major minor major2 minor2 : Int)
    (h1 : major % 4096 = major2 % 4096)
    (h2 : minor % 1048576 = minor2 % 1048576) :
    devModesJoin major minor = devModesJoin major2 minor2 := by
  have hM : (major % (2 : Int) ^ 64).toNat &&& 0xfff =
      (major2 % (2 : Int) ^ 64).toNat &&& 0xfff := by
    rw [and_mask_mod _ 12 _ (by decide),
        and_mask_mod ((major2 % (2 : Int) ^ 64).toNat) 12 _ (by decide),
        emod_toNat_mod major 12 (by norm_num),
        emod_toNat_mod major2 12 (by norm_num)]
    norm_num [h1]
  have hmHigh : (minor % (2 : Int) ^ 64).toNat &&& 0xfff00 =
      (minor2 % (2 : Int) ^ 64).toNat &&& 0xfff00 := by
    rw [and_mask_mod _ 20 _ (by decide),
        and_mask_mod ((minor2 % (2 : Int) ^ 64).toNat) 20 _ (by decide),
        emod_toNat_mod minor 20 (by norm_num),
        emod_toNat_mod minor2 20 (by norm_num)]
    norm_num [h2]
  have hmLow : (minor % (2 : Int) ^ 64).toNat &&& 0xff =
      (minor2 % (2 : Int) ^ 64).toNat &&& 0xff := by
    rw [and_mask_mod _ 20 _ (by decide),
        and_mask_mod ((minor2 % (2 : Int) ^ 64).toNat) 20 _ (by decide),
        emod_toNat_mod minor 20 (by norm_num),
        emod_toNat_mod minor2 20 (by norm_num)]
    norm_num [h2]
  unfold devModesJoin
  rw [hM, hmHigh, hmLow]

/-- Witness for the C10 theorem at concrete inputs: 4096 and 0 agree
modulo 4096, 1048576 and 0 agree modulo 1048576, and the two joins
coincide. -/
theorem devModesJoin_mod_invariance_witness :
    devModesJoin 4096 1048576 = devModesJoin 0 0 :=
  devModesJoin_mod_invariance 4096 1048576 0 0 (by decide) (by decide)

/-- Claim C9: Readlink returns the target with isSymlink true and nil
error when the entry is a symlink, a not-found error when the entry
is absent, the empty target with isSymlink false and nil error when
the entry exists but is not a symlink (EINVAL), and an I/O error in
every other failure case. -/
theorem readlink_cases (path target : String) (e : Nat) :
    Readlink path (.ok target) = (target, true, none) ∧
    Readlink path .enoent = ("", false, some (.errNotExists path)) ∧
    Readlink path .einval = ("", false, none) ∧
    Readlink path (.other e) = ("", false, some (.ioError e)) :=
  ⟨rfl, rfl, rfl, rfl⟩

/-- Claim C8: when the stat of the source succeeds with a type that
is neither File nor Dir, BindPlacer returns an assembly-invalid error
and no teardown function, and issues no mount syscall, whatever the
remaining host responses and the writable flag are. -/
theorem bindPlacer_rejects_other_types (t : FsType)
    (mk m1 m2 : Option GoErr) (writable : Bool)
    (hf : t ≠ .file) (hd : t ≠ .dir) :
    BindPlacer ⟨.ok t, mk, m1, m2⟩ writable =
      { hasCleanup := false, err := some (.categorized .errAssemblyInvalid),
        ops := [] } := by
  cases t with
  | file => exact absurd rfl hf
  | dir => exact absurd rfl hd
  | symlink => rfl
  | namedPipe => rfl
  | socket => rfl
  | device => rfl
  | charDevice => rfl

/-- Witness for the C8 theorem: a symlink source is rejected as
assembly-invalid with no teardown and no mount issued. -/
theorem bindPlacer_rejects_other_types_witness :
    BindPlacer ⟨.ok .symlink, none, none, none⟩ true =
      { hasCleanup := false, err := some (.categorized .errAssemblyInvalid),
        ops := [] } :=
  bindPlacer_rejects_other_types .symlink none none none true
    (by decide) (by decide)

/-- Claim C3, evaluated at the failing input: writable false, stat of
the source succeeds with Dir, mkDest succeeds, the recursive bind
mount (flag word 20480) succeeds, and the read-only remount (flag
word 20513) fails.  BindPlacer returns the assembly-invalid error
with no teardown function, and the issued syscalls contain no
unmount: the writable bind established by the first mount is left
standing, contrary to the claim that it is undone. -/
theorem bindPlacer_remount_failure_keeps_bind :
    BindPlacer ⟨.ok .dir, none, none, some (.hostErr 13)⟩ false =
      { hasCleanup := false, err := some (.categorized .errAssemblyInvalid),
        ops := [.mount 20480, .mount 20513] } ∧
    MountOp.unmount ∉
      (BindPlacer ⟨.ok .dir, none, none, some (.hostErr 13)⟩ false).ops := by
  constructor
  · decide
  · decide

/-- Claim C2, evaluated at the failing input: with a shelf for wareA
already present, cache.Unpack still invokes the underlying unpack
tool (the shelf check is an unwritten TODO in the source), and two
successive calls with the same WareID invoke the tool twice in
total rather than at most once. -/
theorem cacheUnpack_ignores_existing_shelf :
    (cacheUnpack ⟨none⟩ "/cache" [wareA] toolConstA wareA "/dst" ⟨0⟩
        .copy [] ⟨0⟩).toolCalls.length = 1 ∧
    (cacheUnpack ⟨none⟩ "/cache" [] toolConstA wareA "/dst" ⟨0⟩
        .copy [] ⟨0⟩).toolCalls.length +
      (cacheUnpack ⟨none⟩ "/cache"
        (cacheUnpack ⟨none⟩ "/cache" [] toolConstA wareA "/dst" ⟨0⟩
          .copy [] ⟨0⟩).shelvesAfter
        toolConstA wareA "/dst" ⟨0⟩ .copy [] ⟨0⟩).toolCalls.length = 2 :=
  ⟨rfl, rfl⟩

/-- Claim C4, evaluated at the failing input: two distinct
cache.Unpack calls, with different WareIDs, destinations, filters,
modes, warehouses and monitors, both stage into the identical
constant path, because tmpPath is declared and never assigned in the
source: the staging path is never fresh or uniquely named. -/
theorem cacheUnpack_staging_path_constant :
    (cacheUnpack ⟨none⟩ "/cache" [] toolConstA wareA "/dstA" ⟨0⟩
        .copy [] ⟨0⟩).toolCalls.map ToolCall.path = ["/cache/."] ∧
    (cacheUnpack ⟨none⟩ "/cache" [] toolConstB wareB "/dstB" ⟨1⟩
        .mount ["wh"] ⟨1⟩).toolCalls.map ToolCall.path = ["/cache/."] ∧
    wareA ≠ wareB := by
  refine ⟨rfl, rfl, ?_⟩
  decide

/-- Claim C5, evaluated at the failing input: the unpack tool fails
with host error 7.  The whole observable outcome shows the error is
returned unchanged and no shelf is created, but removedPaths is
empty: the staging path is not deleted (the tempdir cleanup is an
unwritten TODO in the source), contrary to the claim. -/
theorem cacheUnpack_tool_failure_leaves_staging :
    cacheUnpack ⟨none⟩ "/cache" [] toolFail wareA "/dst" ⟨0⟩ .copy [] ⟨0⟩ =
      { result := (⟨"", ""⟩, some (.hostErr 7)),
        toolCalls := [⟨wareA, "/cache/.", ⟨0⟩, .direct, [], ⟨0⟩⟩],
        removedPaths := [], shelvesAfter := [] } :=
  rfl

/-- Claim C6, evaluated at the failing input: the unpack tool
succeeds but returns wareB, different from the requested wareA.
cache.Unpack surfaces no mismatch error, returning wareB with a nil
error, and commits nothing to a shelf (the verification and the
atomic relocation are unwritten TODOs in the source), contrary to
the claim. -/
theorem cacheUnpack_no_verify_no_commit :
    cacheUnpack ⟨none⟩ "/cache" [] toolConstB wareA "/dst" ⟨0⟩ .copy [] ⟨0⟩ =
      { result := (wareB, none),
        toolCalls := [⟨wareA, "/cache/.", ⟨0⟩, .direct, [], ⟨0⟩⟩],
        removedPaths := [], shelvesAfter := [] } ∧
    wareB ≠ wareA := by
  refine ⟨rfl, ?_⟩
  decide

/-- Claim C7: every invocation of the underlying unpack tool made by
cache.Unpack carries placement mode Direct, whatever placement mode
the caller requested, and carries the filters and the monitor of the
caller unchanged. -/
theorem cacheUnpack_forces_direct (env : CacheEnv) (basePath : String)
    (shelves : List WareID) (unpackTool : UnpackFunc) (wareID : WareID)
    (path : String) (filt : FilesetFilters) (placementMode : PlacementMode)
    (warehouses : List String) (monitor : Monitor) (call : ToolCall)
    (hc : call ∈ (cacheUnpack env basePath shelves unpackTool wareID path filt
        placementMode warehouses monitor).toolCalls) :
    call.placementMode = .direct ∧ call.filt = filt ∧ call.monitor = monitor := by
  obtain ⟨me⟩ := env
  cases me with
  | some e => simp [cacheUnpack] at hc
  | none =>
    rcases hr : unpackTool wareID (fsJoin basePath zeroRelPath) filt
        PlacementMode.direct warehouses monitor with ⟨rw1, re⟩
    cases re with
    | some e =>
      simp only [cacheUnpack, hr, List.mem_singleton] at hc
      subst hc
      exact ⟨rfl, rfl, rfl⟩
    | none =>
      simp only [cacheUnpack, hr, List.mem_singleton] at hc
      subst hc
      exact ⟨rfl, rfl, rfl⟩

/-- Witness for the C7 theorem: a concrete cache.Unpack call
requesting Copy placement makes exactly the tool invocation with
Direct placement and the forwarded filters and monitor. -/
theorem cacheUnpack_forces_direct_witness :
    (ToolCall.mk wareA "/cache/." ⟨0⟩ .direct [] ⟨0⟩).placementMode = .direct ∧
    (ToolCall.mk wareA "/cache/." ⟨0⟩ .direct [] ⟨0⟩).filt = ⟨0⟩ ∧
    (ToolCall.mk wareA "/cache/." ⟨0⟩ .direct [] ⟨0⟩).monitor = ⟨0⟩ :=
  cacheUnpack_forces_direct ⟨none⟩ "/cache" [] toolConstA wareA "/dst" ⟨0⟩
    .copy [] ⟨0⟩ (ToolCall.mk wareA "/cache/." ⟨0⟩ .direct [] ⟨0⟩) (by decide)

end Rio
